import Mathlib

/-!
Shallow embedding of the vnet-manager convergence and compilation engine:
`vnet_manager/operations/machine.py` and `vnet_manager/operations/interface.py`.

Python dicts are modelled as association lists (`List (String × _)`) preserving
insertion order, with first-match lookup; fallible code returns `Option`;
side effects (backend calls, sleeps) are modelled as explicit traces.
-/

set_option autoImplicit false

namespace VnetManager

/-- First-match lookup in an association list, mirroring Python `dict.get`. -/
def lookup {α : Type} (l : List (String × α)) (k : String) : Option α :=
  (l.find? (fun p => p.1 == k)).map (fun p => p.2)

/-- One machine network interface from the config (`InterfaceSpec`):
`bridge` index, `mac`, optional `ipv4`/`ipv6` address strings, optional
`routes` copied through verbatim (modelled as opaque key-value maps). -/
structure InterfaceSpec where
  bridge : Nat
  mac : String
  ipv4 : Option String
  ipv6 : Option String
  routes : Option (List (List (String × String)))
deriving DecidableEq

/-- A VLAN declaration of a machine (`VlanSpec`). -/
structure VlanSpec where
  id : Nat
  link : String
  addresses : List String
deriving DecidableEq

/-- An in-guest bridge declaration of a machine (`BridgeSpec`). -/
structure BridgeSpec where
  slaves : List String
  ipv4 : Option String
  ipv6 : Option String
deriving DecidableEq

/-- A machine entry of the config (`MachineSpec`). -/
structure MachineSpec where
  mtype : String
  interfaces : List (String × InterfaceSpec)
  vlans : Option (List (String × VlanSpec))
  bridges : Option (List (String × BridgeSpec))
deriving DecidableEq

/-- The loaded topology config: a switch count and the machines mapping. -/
structure Config where
  switches : Nat
  machines : List (String × MachineSpec)
deriving DecidableEq

/-- A value occurring in the generated netplan YAML document. -/
inductive YamlVal where
  | str : String → YamlVal
  | nat : Nat → YamlVal
  | strList : List String → YamlVal
  | strMap : List (String × String) → YamlVal
  | routesVal : List (List (String × String)) → YamlVal
deriving DecidableEq

/-- One entry of a netplan section: an ordered key-value dictionary. -/
abbrev Entry := List (String × YamlVal)

/-- The `no_dhcp` dict of `generate_machine_netplan_config`. -/
def noDhcp : Entry :=
  [("dhcp4", YamlVal.str "no"), ("dhcp6", YamlVal.str "no")]

/-- The ethernets entry built for one interface by
`generate_machine_netplan_config`: match-by-MAC, set-name, the addresses
list (ipv4 then ipv6, each when present), the no-DHCP keys, and the routes
copied through when present. -/
def ethernetEntry (intName : String) (d : InterfaceSpec) : Entry :=
  [("match", YamlVal.strMap [("macaddress", d.mac)]),
   ("set-name", YamlVal.str intName),
   ("addresses", YamlVal.strList (d.ipv4.toList ++ d.ipv6.toList))]
  ++ noDhcp
  ++ (match d.routes with
      | some r => [("routes", YamlVal.routesVal r)]
      | none => [])

/-- The vlans entry built for one VLAN by `generate_machine_netplan_config`. -/
def vlanEntry (d : VlanSpec) : Entry :=
  [("id", YamlVal.nat d.id),
   ("link", YamlVal.str d.link),
   ("addresses", YamlVal.strList d.addresses)]
  ++ noDhcp

/-- The bridges entry built for one in-guest bridge by
`generate_machine_netplan_config`. -/
def bridgeEntry (d : BridgeSpec) : Entry :=
  [("interfaces", YamlVal.strList d.slaves),
   ("addresses", YamlVal.strList (d.ipv4.toList ++ d.ipv6.toList))]
  ++ noDhcp

/-- The generated netplan document: `network.version/renderer/ethernets`
with the optional `vlans` and `bridges` sections. -/
structure NetworkConf where
  version : Nat
  renderer : String
  ethernets : List (String × Entry)
  vlans : Option (List (String × Entry))
  bridges : Option (List (String × Entry))
deriving DecidableEq

/-- `generate_machine_netplan_config(config, machine)`: compiles the netplan
document for one machine. A machine name absent from the machines mapping
makes the Python code fail (`.get` returns `None` and the subsequent
subscript raises `TypeError`); that failure is `none` here. -/
def generate_machine_netplan_config (config : Config) (machine : String) :
    Option NetworkConf :=
  match lookup config.machines machine with
  | none => none
  | some mc =>
    some
      { version := 2
        renderer := "networkd"
        ethernets := mc.interfaces.map (fun p => (p.1, ethernetEntry p.1 p.2))
        vlans := mc.vlans.map (fun vs => vs.map (fun p => (p.1, vlanEntry p.2)))
        bridges := mc.bridges.map (fun bs => bs.map (fun p => (p.1, bridgeEntry p.2))) }

/-- An empty document, used only as an `Option.getD` default in witnesses. -/
def emptyNetworkConf : NetworkConf :=
  { version := 2, renderer := "networkd", ethernets := [], vlans := none, bridges := none }

/-- Python dict assignment `d[k] = v` on an insertion-ordered dict: an
existing key is overwritten in place, a new key is appended at the end. -/
def dictInsert {α : Type} (l : List (String × α)) (k : String) (v : α) :
    List (String × α) :=
  if (l.find? (fun p => p.1 == k)).isSome then
    l.map (fun p => if p.1 == k then (k, v) else p)
  else
    l ++ [(k, v)]

/-- The bridged-nic device dict built for one interface inside
`create_lxc_machines_from_base_image`: `bridgeName` is
`settings.VNET_BRIDGE_NAME`, the parent is that name concatenated with the
interface's bridge index, the hwaddr is the interface's MAC. -/
def lxc_nic_device (bridgeName container intName : String) (d : InterfaceSpec) :
    List (String × String) :=
  [("name", intName),
   ("host_name", container ++ "-" ++ intName),
   ("parent", bridgeName ++ toString d.bridge),
   ("type", "nic"),
   ("nictype", "bridged"),
   ("hwaddr", d.mac)]

/-- The `device_config` dict built inside `create_lxc_machines_from_base_image`:
it starts as a dict holding the default `eth0` device of type `none` and then
assigns one nic device per declared interface, keyed by the interface name. -/
def lxc_device_config (bridgeName container : String)
    (interfaces : List (String × InterfaceSpec)) :
    List (String × List (String × String)) :=
  interfaces.foldl
    (fun acc p => dictInsert acc p.1 (lxc_nic_device bridgeName container p.1 p.2))
    [("eth0", [("type", "none")])]

/-- Python `str.lower()` on the ASCII status strings: lowercase every
character (structurally recursive so that concrete runs reduce). -/
def strToLower (s : String) : String :=
  String.mk (s.data.map Char.toLower)

/-- Case-insensitive status comparison of `wait_for_lxc_machine_status`:
`container.state().status.lower() == status.lower()`. -/
def statusEq (a b : String) : Bool :=
  strToLower a == strToLower b

/-- The outcome of a convergence wait: success on a given 1-based probe
number, or a timeout; either way with the list of performed sleeps. -/
inductive WaitResult where
  | success : Nat → List Nat → WaitResult
  | timeout : List Nat → WaitResult
deriving DecidableEq

/-- The body of the wait loop of `wait_for_lxc_machine_status`, over the
remaining attempt indices: probe, return on case-insensitive match, else
record the sleep `i * (baseInterval * backoffMultiplier)` and retry. -/
def waitAux (probe : Nat → String) (target : String) (base mult : Nat) :
    List Nat → List Nat → WaitResult
  | [], sleeps => WaitResult.timeout sleeps
  | i :: rest, sleeps =>
    if statusEq (probe i) target then WaitResult.success i sleeps
    else waitAux probe target base mult rest (sleeps ++ [i * (base * mult)])

/-- `wait_for_lxc_machine_status(container, status)`: probes are the
successive values of `container.state().status` (the `i`-th loop iteration
performs the `i`-th probe, `i` starting at 1); the loop runs over
`range(1, maxAttempts)` with `maxAttempts = settings.LXC_MAX_STATUS_WAIT_ATTEMPTS`,
`base = settings.LXC_STATUS_WAIT_SLEEP`,
`mult = settings.LXC_STATUS_BACKOFF_MULTIPLIER`, and raises `TimeoutError`
when the loop ends without a match. -/
def wait_for_lxc_machine_status (probe : Nat → String) (target : String)
    (maxAttempts base mult : Nat) : WaitResult :=
  waitAux probe target base mult (List.range' 1 (maxAttempts - 1)) []

/-- The outcome of `change_machine_status`: the raised error when the
requested status is invalid, the `(machine, provider)` pairs dispatched to a
provider status-change function, and the machine names skipped because they
have no config entry. -/
structure BatchOutcome where
  error : Option String
  processed : List (String × String)
  skipped : List String
deriving DecidableEq

/-- One iteration of the machine loop of `change_machine_status`: a machine
without a config entry is logged and skipped, otherwise its provider is
looked up and the provider status-change function is dispatched. -/
def batchStep (providerOf : String → String) (config : Config)
    (acc : BatchOutcome) (machine : String) : BatchOutcome :=
  match lookup config.machines machine with
  | none => { acc with skipped := acc.skipped ++ [machine] }
  | some spec => { acc with processed := acc.processed ++ [(machine, providerOf spec.mtype)] }

/-- `change_machine_status(config, status, machines)`: raises
`NotImplementedError` for a status outside `settings.VALID_STATUSES` before
touching any machine; a falsy machines argument (absent or empty list) means
all machines of the config; then the loop processes each name in order.
`providerOf` is `settings.MACHINE_TYPE_PROVIDER_MAPPING` and
`validStatuses` is `settings.VALID_STATUSES`. -/
def change_machine_status (providerOf : String → String)
    (validStatuses : List String) (config : Config) (status : String)
    (machines : Option (List String)) : BatchOutcome :=
  if validStatuses.contains status then
    let ms : List String := match machines with
      | none => config.machines.map (fun p => p.1)
      | some [] => config.machines.map (fun p => p.1)
      | some l => l
    ms.foldl (batchStep providerOf config)
      { error := none, processed := [], skipped := [] }
  else
    { error := some ("Requested machine status change " ++ status ++ " unknown")
      processed := []
      skipped := [] }

/-- A mutating backend call issued by `destroy_lxc_machine`. -/
inductive BackendCall where
  | stop : String → BackendCall
  | delete : String → BackendCall
deriving DecidableEq

/-- `destroy_lxc_machine(machine)`: `containers` is the backend state mapping
container names to their current status. A `NotFound` on `containers.get`
is logged as a warning and the function returns at once; otherwise a
running container is stopped first, then deleted. The result is the trace
of mutating backend calls. -/
def destroy_lxc_machine (containers : List (String × String)) (machine : String) :
    List BackendCall :=
  match lookup containers machine with
  | none => []
  | some st =>
    (if strToLower st == "running" then [BackendCall.stop machine] else [])
      ++ [BackendCall.delete machine]

/-- `get_vnet_interface_names_from_config(config)`: `bridgeName` is
`settings.VNET_BRIDGE_NAME`; one name per switch index. -/
def get_vnet_interface_names_from_config (bridgeName : String) (config : Config) :
    List String :=
  (List.range config.switches).map (fun i => bridgeName ++ toString i)

/-- `int(ifname[-1])` of `get_machines_by_vnet_interface_name`: the integer
value of the final character of the interface name; `none` models the
`IndexError`/`ValueError` raised on an empty name or a non-digit. -/
def lastCharDigit (s : String) : Option Nat :=
  match s.data.getLast? with
  | some c => if c.isDigit then some (c.toNat - '0'.toNat) else none
  | none => none

/-- `get_machines_by_vnet_interface_name(config, ifname)`: appends a machine
name once per interface of that machine whose bridge index equals the
integer value of the final character of `ifname`. -/
def get_machines_by_vnet_interface_name (config : Config) (ifname : String) :
    Option (List String) :=
  match lastCharDigit ifname with
  | none => none
  | some d =>
    some (config.machines.foldl
      (fun acc p =>
        p.2.interfaces.foldl
          (fun acc2 q => if q.2.bridge == d then acc2 ++ [p.1] else acc2)
          acc)
      [])

/-- An entry carries the two DHCP-disabling keys, both set to `"no"`. -/
def entryHasNoDhcp (e : Entry) : Prop :=
  lookup e "dhcp4" = some (YamlVal.str "no") ∧ lookup e "dhcp6" = some (YamlVal.str "no")

/-- A concrete interface bound to bridge index 5. -/
def iface5 : InterfaceSpec :=
  { bridge := 5, mac := "AA:AA:AA:AA:AA:05", ipv4 := none, ipv6 := none, routes := none }

/-- A concrete topology with 2 switches and one machine whose single
interface is bound to the out-of-range bridge index 5. -/
def cfgOutOfRange : Config :=
  { switches := 2
    machines := [("m1", { mtype := "lxc", interfaces := [("eth1", iface5)],
                          vlans := none, bridges := none })] }

/-- A concrete interface with both address families set and a route. -/
def ifaceFull : InterfaceSpec :=
  { bridge := 0
    mac := "AA:BB:CC:DD:EE:01"
    ipv4 := some "10.0.0.1/24"
    ipv6 := some "fd00::1/64"
    routes := some [[("to", "0.0.0.0/0"), ("via", "10.0.0.254")]] }

/-- A concrete interface with neither address family set. -/
def ifaceBare : InterfaceSpec :=
  { bridge := 1, mac := "AA:BB:CC:DD:EE:02", ipv4 := none, ipv6 := none, routes := none }

/-- A concrete machine spec exercising ethernets, vlans and bridges sections. -/
def mFull : MachineSpec :=
  { mtype := "lxc"
    interfaces := [("eth1", ifaceFull), ("eth2", ifaceBare)]
    vlans := some [("vlan10", { id := 10, link := "eth1", addresses := ["10.1.0.1/24"] })]
    bridges := some [("br0", { slaves := ["eth1", "eth2"],
                               ipv4 := some "10.2.0.1/24", ipv6 := none })] }

/-- A concrete topology exercising ethernets, vlans and bridges sections. -/
def cfgFull : Config :=
  { switches := 2, machines := [("m1", mFull)] }

/-- The document compiled for machine `m1` of `cfgFull`. -/
def confFull : NetworkConf :=
  (generate_machine_netplan_config cfgFull "m1").getD emptyNetworkConf

/-- The probe sequence Stopped, Stopped, Running (then Stopped forever). -/
def probeSSR : Nat → String
  | 1 => "Stopped"
  | 2 => "Stopped"
  | 3 => "Running"
  | _ => "Stopped"

/-- The probe sequence Stopped, Running (then Stopped forever). -/
def probeSR : Nat → String
  | 2 => "Running"
  | _ => "Stopped"

/-- The probe sequence that always observes Stopped. -/
def probeStopped : Nat → String :=
  fun _ => "Stopped"

/-- C2: compiling the netplan document for a machine name absent from the
config's machines mapping fails (the Python code crashes on the `None`
lookup result instead of returning a document). -/
theorem netplan_unknown_machine_fails (config : Config) (machine : String)
    (h : lookup config.machines machine = none) :
    generate_machine_netplan_config config machine = none := by
  simp [generate_machine_netplan_config, h]

theorem netplan_unknown_machine_fails_witness :
    generate_machine_netplan_config cfgOutOfRange "ghost" = none :=
  netplan_unknown_machine_fails cfgOutOfRange "ghost" rfl

/-- C4: destroying a machine the backend reports as absent returns normally
without issuing any mutating backend call (no stop and no delete). -/
theorem destroy_absent_machine_no_mutation (containers : List (String × String))
    (machine : String) (h : lookup containers machine = none) :
    destroy_lxc_machine containers machine = [] := by
  simp [destroy_lxc_machine, h]

theorem destroy_absent_machine_no_mutation_witness :
    destroy_lxc_machine [("other", "Running")] "m1" = [] :=
  destroy_absent_machine_no_mutation [("other", "Running")] "m1" rfl

/-- C8: a requested status outside the valid statuses makes
`change_machine_status` raise `NotImplementedError` before any machine of
the batch is processed: the error is raised, no machine is dispatched to a
provider and none is even skipped. -/
theorem batch_status_change_invalid_status_aborts (providerOf : String → String)
    (validStatuses : List String) (config : Config) (status : String)
    (machines : Option (List String))
    (h : validStatuses.contains status = false) :
    change_machine_status providerOf validStatuses config status machines
      = { error := some ("Requested machine status change " ++ status ++ " unknown")
          processed := []
          skipped := [] } := by
  unfold change_machine_status
  rw [if_neg (by simpa using h)]

theorem batch_status_change_invalid_status_aborts_witness :
    change_machine_status (fun _ => "lxc") ["start", "stop"] cfgFull "reboot"
        (some ["m1", "m2"])
      = { error := some ("Requested machine status change " ++ "reboot" ++ " unknown")
          processed := []
          skipped := [] } :=
  batch_status_change_invalid_status_aborts (fun _ => "lxc") ["start", "stop"]
    cfgFull "reboot" (some ["m1", "m2"]) (by decide)

/-- C3 fails on the code: with 2 declared switches and an interface bound to
bridge index 5, neither the netplan compilation nor the device-config
generation raises any error — compilation succeeds and the out-of-range
index is passed straight through into the parent bridge name. -/
theorem netplan_out_of_range_bridge_counterexample :
    cfgOutOfRange.switches = 2 ∧
    lookup cfgOutOfRange.machines "m1"
      = some { mtype := "lxc", interfaces := [("eth1", iface5)],
               vlans := none, bridges := none } ∧
    iface5.bridge = 5 ∧
    ¬ iface5.bridge < cfgOutOfRange.switches ∧
    (generate_machine_netplan_config cfgOutOfRange "m1").isSome = true ∧
    lookup (lxc_nic_device "vnet-br" "m1" "eth1" iface5) "parent" = some "vnet-br5" :=
  ⟨rfl, rfl, rfl, by decide, rfl, rfl⟩

/-- C3 amended: no bridge-index range check exists; for every machine present
in the config, netplan compilation succeeds whatever the bridge indices of
its interfaces are, and the device config built for each interface uses the
bridge-name prefix concatenated with the raw index as the nic parent. -/
theorem netplan_no_bridge_range_check (bridgeName : String) (config : Config)
    (machine : String) (mc : MachineSpec)
    (h : lookup config.machines machine = some mc) :
    (generate_machine_netplan_config config machine).isSome = true ∧
    ∀ p ∈ mc.interfaces,
      lookup (lxc_nic_device bridgeName machine p.1 p.2) "parent"
        = some (bridgeName ++ toString p.2.bridge) := by
  constructor
  · simp [generate_machine_netplan_config, h]
  · intro p _
    rfl

theorem netplan_no_bridge_range_check_witness :
    (generate_machine_netplan_config cfgOutOfRange "m1").isSome = true ∧
    ∀ p ∈ [("eth1", iface5)],
      lookup (lxc_nic_device "vnet-br" "m1" p.1 p.2) "parent"
        = some ("vnet-br" ++ toString p.2.bridge) :=
  netplan_no_bridge_range_check "vnet-br" cfgOutOfRange "m1"
    { mtype := "lxc", interfaces := [("eth1", iface5)], vlans := none, bridges := none }
    rfl

/-- Unsuccessful probes are consumed one by one, each recording its sleep. -/
theorem waitAux_all_fail (probe : Nat → String) (target : String) (base mult : Nat)
    (l : List Nat) (hfail : ∀ i ∈ l, statusEq (probe i) target = false) :
    ∀ rest sleeps, waitAux probe target base mult (l ++ rest) sleeps
      = waitAux probe target base mult rest
          (sleeps ++ l.map (fun i => i * (base * mult))) := by
  induction l with
  | nil => intro rest sleeps; simp
  | cons i l ih =>
    intro rest sleeps
    have hi : statusEq (probe i) target = false := hfail i (List.mem_cons_self i l)
    have hl : ∀ j ∈ l, statusEq (probe j) target = false :=
      fun j hj => hfail j (List.mem_cons_of_mem i hj)
    rw [List.cons_append]
    rw [show waitAux probe target base mult (i :: (l ++ rest)) sleeps
        = waitAux probe target base mult (l ++ rest) (sleeps ++ [i * (base * mult)]) from by
      simp [waitAux, hi]]
    rw [ih hl rest (sleeps ++ [i * (base * mult)])]
    simp

/-- C1 fails on the code: the wait loop runs over `range(1, maxAttempts)` and
therefore performs only `maxAttempts - 1` probes. With `maxAttempts = 3`,
`baseInterval = 1`, `backoffMultiplier = 1`, probe sequence
Stopped, Stopped, Running and target `Running`, the wait never reaches the
3rd probe: it times out after 2 probes and 2 sleeps instead of succeeding
on the 3rd probe as claimed. -/
theorem wait_status_off_by_one_counterexample :
    wait_for_lxc_machine_status probeSSR "Running" 3 1 1 = WaitResult.timeout [1, 2] ∧
    wait_for_lxc_machine_status probeSSR "Running" 3 1 1 ≠ WaitResult.success 3 [1, 2] := by
  constructor
  · rfl
  · decide

/-- C1 amended: the convergence wait probes up to `maxAttempts - 1` times,
returning success as soon as an observed status equals the target
case-insensitively, sleeping `i * baseInterval * backoffMultiplier` after
the `i`-th failed probe, and failing with `Timeout` after `maxAttempts - 1`
unsuccessful probes. -/
theorem wait_status_converges_spec (probe : Nat → String) (target : String)
    (maxAttempts base mult : Nat) :
    ((∀ i ∈ List.range' 1 (maxAttempts - 1), statusEq (probe i) target = false) →
      wait_for_lxc_machine_status probe target maxAttempts base mult
        = WaitResult.timeout
            ((List.range' 1 (maxAttempts - 1)).map (fun i => i * (base * mult)))) ∧
    (∀ j, 1 ≤ j → j ≤ maxAttempts - 1 →
      (∀ i ∈ List.range' 1 (j - 1), statusEq (probe i) target = false) →
      statusEq (probe j) target = true →
      wait_for_lxc_machine_status probe target maxAttempts base mult
        = WaitResult.success j
            ((List.range' 1 (j - 1)).map (fun i => i * (base * mult)))) := by
  constructor
  · intro hfail
    unfold wait_for_lxc_machine_status
    have h := waitAux_all_fail probe target base mult
      (List.range' 1 (maxAttempts - 1)) hfail [] []
    simpa using h
  · intro j hj1 hj2 hfail hsucc
    unfold wait_for_lxc_machine_status
    have h1 : 1 + (j - 1) = j := by omega
    have hsplit : List.range' 1 (j - 1) ++ List.range' j (maxAttempts - j)
        = List.range' 1 (maxAttempts - 1) := by
      calc List.range' 1 (j - 1) ++ List.range' j (maxAttempts - j)
          = List.range' 1 (j - 1) ++ List.range' (1 + (j - 1)) (maxAttempts - j) := by
            rw [h1]
        _ = List.range' 1 ((maxAttempts - j) + (j - 1)) :=
            List.range'_append_1 1 (j - 1) (maxAttempts - j)
        _ = List.range' 1 (maxAttempts - 1) := by
            rw [show (maxAttempts - j) + (j - 1) = maxAttempts - 1 from by omega]
    rw [← hsplit,
      waitAux_all_fail probe target base mult (List.range' 1 (j - 1)) hfail]
    have hrest : List.range' j (maxAttempts - j)
        = j :: List.range' (j + 1) (maxAttempts - j - 1) := by
      conv_lhs => rw [show maxAttempts - j = (maxAttempts - j - 1) + 1 from by omega]
      rw [List.range'_succ]
    rw [hrest]
    simp [waitAux, hsucc]

theorem wait_status_converges_spec_witness :
    wait_for_lxc_machine_status probeStopped "Running" 3 1 1
      = WaitResult.timeout [1, 2] ∧
    wait_for_lxc_machine_status probeSR "Running" 3 1 1
      = WaitResult.success 2 [1] :=
  ⟨(wait_status_converges_spec probeStopped "Running" 3 1 1).1 (by decide),
   (wait_status_converges_spec probeSR "Running" 3 1 1).2 2 (by decide) (by decide)
     (by decide) (by decide)⟩

/-- C5: the compiled ethernets entry of every declared interface lists its
addresses as the concatenation of the present `ipv4` value followed by the
present `ipv6` value (`Option.toList` is the singleton when present and
empty when absent, so both set gives exactly the two values in that order
and neither set gives the empty list). -/
theorem netplan_addresses_concat (config : Config) (machine : String)
    (mc : MachineSpec) (conf : NetworkConf) (n : String) (d : InterfaceSpec)
    (hmc : lookup config.machines machine = some mc)
    (hconf : generate_machine_netplan_config config machine = some conf)
    (hmem : (n, d) ∈ mc.interfaces) :
    (n, ethernetEntry n d) ∈ conf.ethernets ∧
    lookup (ethernetEntry n d) "addresses"
      = some (YamlVal.strList (d.ipv4.toList ++ d.ipv6.toList)) := by
  constructor
  · have hconf' : conf
        = { version := 2
            renderer := "networkd"
            ethernets := mc.interfaces.map (fun p => (p.1, ethernetEntry p.1 p.2))
            vlans := mc.vlans.map (fun vs => vs.map (fun p => (p.1, vlanEntry p.2)))
            bridges := mc.bridges.map (fun bs => bs.map (fun p => (p.1, bridgeEntry p.2))) } := by
      unfold generate_machine_netplan_config at hconf
      rw [hmc] at hconf
      exact (Option.some_injective _ hconf).symm
    rw [hconf']
    exact List.mem_map_of_mem (fun p => (p.1, ethernetEntry p.1 p.2)) hmem
  · rfl

theorem netplan_addresses_concat_witness :
    ((("eth1", ethernetEntry "eth1" ifaceFull) ∈ confFull.ethernets ∧
      lookup (ethernetEntry "eth1" ifaceFull) "addresses"
        = some (YamlVal.strList (ifaceFull.ipv4.toList ++ ifaceFull.ipv6.toList))) ∧
     (("eth2", ethernetEntry "eth2" ifaceBare) ∈ confFull.ethernets ∧
      lookup (ethernetEntry "eth2" ifaceBare) "addresses"
        = some (YamlVal.strList (ifaceBare.ipv4.toList ++ ifaceBare.ipv6.toList)))) ∧
    ifaceFull.ipv4.toList ++ ifaceFull.ipv6.toList = ["10.0.0.1/24", "fd00::1/64"] ∧
    ifaceBare.ipv4.toList ++ ifaceBare.ipv6.toList = [] :=
  ⟨⟨netplan_addresses_concat cfgFull "m1" mFull confFull "eth1" ifaceFull rfl rfl
      (by decide),
    netplan_addresses_concat cfgFull "m1" mFull confFull "eth2" ifaceBare rfl rfl
      (by decide)⟩,
   rfl, rfl⟩

/-- Each ethernets entry carries `dhcp4 = "no"` and `dhcp6 = "no"`. -/
theorem ethernetEntry_no_dhcp (n : String) (d : InterfaceSpec) :
    entryHasNoDhcp (ethernetEntry n d) :=
  ⟨rfl, rfl⟩

/-- Each vlans entry carries `dhcp4 = "no"` and `dhcp6 = "no"`. -/
theorem vlanEntry_no_dhcp (d : VlanSpec) : entryHasNoDhcp (vlanEntry d) :=
  ⟨rfl, rfl⟩

/-- Each bridges entry carries `dhcp4 = "no"` and `dhcp6 = "no"`. -/
theorem bridgeEntry_no_dhcp (d : BridgeSpec) : entryHasNoDhcp (bridgeEntry d) :=
  ⟨rfl, rfl⟩

/-- C6: every entry of the compiled document — every ethernets entry, every
vlans entry and every bridges entry — carries the keys `dhcp4` and `dhcp6`,
both set to the string `"no"`. -/
theorem netplan_all_entries_no_dhcp (config : Config) (machine : String)
    (conf : NetworkConf)
    (hconf : generate_machine_netplan_config config machine = some conf) :
    (∀ p ∈ conf.ethernets, entryHasNoDhcp p.2) ∧
    (∀ vs, conf.vlans = some vs → ∀ p ∈ vs, entryHasNoDhcp p.2) ∧
    (∀ bs, conf.bridges = some bs → ∀ p ∈ bs, entryHasNoDhcp p.2) := by
  unfold generate_machine_netplan_config at hconf
  cases hmc : lookup config.machines machine with
  | none => rw [hmc] at hconf; exact absurd hconf (by simp)
  | some mc =>
    rw [hmc] at hconf
    have hconf' := (Option.some_injective _ hconf).symm
    subst hconf'
    refine ⟨?_, ?_, ?_⟩
    · intro p hp
      rcases List.mem_map.mp hp with ⟨q, _, hq⟩
      rw [← hq]
      exact ethernetEntry_no_dhcp q.1 q.2
    · intro vs hvs p hp
      cases hv : mc.vlans with
      | none => rw [hv] at hvs; exact absurd hvs (by simp)
      | some vl =>
        rw [hv] at hvs
        simp only [Option.map_some] at hvs
        rcases List.mem_map.mp ((Option.some_injective _ hvs) ▸ hp) with ⟨q, _, hq⟩
        rw [← hq]
        exact vlanEntry_no_dhcp q.2
    · intro bs hbs p hp
      cases hb : mc.bridges with
      | none => rw [hb] at hbs; exact absurd hbs (by simp)
      | some bl =>
        rw [hb] at hbs
        simp only [Option.map_some] at hbs
        rcases List.mem_map.mp ((Option.some_injective _ hbs) ▸ hp) with ⟨q, _, hq⟩
        rw [← hq]
        exact bridgeEntry_no_dhcp q.2

theorem netplan_all_entries_no_dhcp_witness :
    (∀ p ∈ confFull.ethernets, entryHasNoDhcp p.2) ∧
    (∀ vs, confFull.vlans = some vs → ∀ p ∈ vs, entryHasNoDhcp p.2) ∧
    (∀ bs, confFull.bridges = some bs → ∀ p ∈ bs, entryHasNoDhcp p.2) :=
  netplan_all_entries_no_dhcp cfgFull "m1" confFull rfl

/-- The machine loop of `change_machine_status` appends the skipped and the
dispatched machines in order, never touching the error field. -/
theorem batch_foldl_spec (providerOf : String → String) (config : Config)
    (ms : List String) (acc : BatchOutcome) :
    ms.foldl (batchStep providerOf config) acc
      = { error := acc.error
          processed := acc.processed
            ++ ms.filterMap (fun m => (lookup config.machines m).map
                 (fun spec => (m, providerOf spec.mtype)))
          skipped := acc.skipped
            ++ ms.filter (fun m => (lookup config.machines m).isNone) } := by
  induction ms generalizing acc with
  | nil => simp
  | cons m ms ih =>
    rw [List.foldl_cons, ih]
    cases hm : lookup config.machines m with
    | none => simp [batchStep, hm, List.filter_cons, List.filterMap_cons]
    | some spec => simp [batchStep, hm, List.filter_cons, List.filterMap_cons]

/-- C7: with a valid requested status, the batch status-change returns
normally (no raised error); every listed machine without a config entry is
skipped, and every listed machine with a config entry is still dispatched
to its provider's status-change function. -/
theorem batch_status_change_skips_missing (providerOf : String → String)
    (validStatuses : List String) (config : Config) (status : String)
    (ms : List String)
    (hstatus : validStatuses.contains status = true) :
    (change_machine_status providerOf validStatuses config status (some ms)).error
      = none ∧
    (∀ m ∈ ms, lookup config.machines m = none →
      m ∈ (change_machine_status providerOf validStatuses config status (some ms)).skipped) ∧
    (∀ m ∈ ms, ∀ spec, lookup config.machines m = some spec →
      (m, providerOf spec.mtype)
        ∈ (change_machine_status providerOf validStatuses config status (some ms)).processed) := by
  unfold change_machine_status
  rw [if_pos (by simpa using hstatus)]
  cases ms with
  | nil =>
    rw [batch_foldl_spec]
    exact ⟨rfl, by simp, by simp⟩
  | cons m0 ms' =>
    rw [batch_foldl_spec]
    refine ⟨rfl, ?_, ?_⟩
    · intro m hm hnone
      simp only [List.nil_append, List.mem_filter]
      exact ⟨hm, by simp [hnone]⟩
    · intro m hm spec hspec
      simp only [List.nil_append, List.mem_filterMap]
      exact ⟨m, hm, by simp [hspec]⟩

theorem batch_status_change_skips_missing_witness :
    (change_machine_status (fun _ => "lxc") ["start", "stop"] cfgFull "start"
        (some ["m1", "m2"])).error = none ∧
    (∀ m ∈ ["m1", "m2"], lookup cfgFull.machines m = none →
      m ∈ (change_machine_status (fun _ => "lxc") ["start", "stop"] cfgFull "start"
            (some ["m1", "m2"])).skipped) ∧
    (∀ m ∈ ["m1", "m2"], ∀ spec, lookup cfgFull.machines m = some spec →
      (m, (fun _ => "lxc") spec.mtype)
        ∈ (change_machine_status (fun _ => "lxc") ["start", "stop"] cfgFull "start"
            (some ["m1", "m2"])).processed) :=
  batch_status_change_skips_missing (fun _ => "lxc") ["start", "stop"] cfgFull
    "start" ["m1", "m2"] (by decide)

/-- The inner interface loop of `get_machines_by_vnet_interface_name` appends
the machine name once per matching interface. -/
theorem machines_inner_fold (name : String) (d : Nat)
    (ifaces : List (String × InterfaceSpec)) (acc : List String) :
    ifaces.foldl
        (fun acc2 q => if q.2.bridge == d then acc2 ++ [name] else acc2) acc
      = acc ++ (ifaces.filter (fun q => q.2.bridge == d)).map (fun _ => name) := by
  induction ifaces generalizing acc with
  | nil => simp
  | cons q qs ih =>
    rw [List.foldl_cons]
    by_cases h : q.2.bridge == d
    · rw [if_pos h, ih]
      simp [List.filter_cons, h]
    · rw [if_neg h, ih]
      simp [List.filter_cons, h]

/-- The outer machine loop of `get_machines_by_vnet_interface_name` joins the
per-machine repetition lists in declaration order. -/
theorem machines_outer_fold (d : Nat) (ms : List (String × MachineSpec))
    (acc : List String) :
    ms.foldl
        (fun acc p => p.2.interfaces.foldl
          (fun acc2 q => if q.2.bridge == d then acc2 ++ [p.1] else acc2) acc) acc
      = acc ++ (ms.map (fun p =>
          (p.2.interfaces.filter (fun q => q.2.bridge == d)).map (fun _ => p.1))).flatten := by
  induction ms generalizing acc with
  | nil => simp
  | cons p ps ih =>
    rw [List.foldl_cons, machines_inner_fold, ih]
    simp

/-- C9: when the final character of the interface name is the digit `d`, the
returned list contains exactly the machines having at least one interface
whose bridge index equals `d`; any two interface names sharing their final
character produce the same result, so bridge indices that differ but share
a final digit (such as 1 and 11) are conflated. -/
theorem machines_by_vnet_interface_last_digit (config : Config)
    (ifname s : String) (d : Nat) (res : List String) (m : String)
    (hd : lastCharDigit ifname = some d)
    (hres : get_machines_by_vnet_interface_name config ifname = some res)
    (hs : s.data.getLast? = ifname.data.getLast?) :
    (m ∈ res ↔ ∃ p ∈ config.machines, p.1 = m ∧ ∃ q ∈ p.2.interfaces, q.2.bridge = d) ∧
    get_machines_by_vnet_interface_name config s
      = get_machines_by_vnet_interface_name config ifname := by
  constructor
  · unfold get_machines_by_vnet_interface_name at hres
    rw [hd] at hres
    have hres' := Option.some_injective _ hres
    rw [← hres', machines_outer_fold]
    simp only [List.nil_append, List.mem_flatten, List.mem_map]
    constructor
    · rintro ⟨l, ⟨p, hp, hl⟩, hml⟩
      rw [← hl] at hml
      rcases List.mem_map.mp hml with ⟨q, hq, hqm⟩
      exact ⟨p, hp, hqm, q, List.mem_of_mem_filter hq, by
        have := List.of_mem_filter hq
        exact eq_of_beq this⟩
    · rintro ⟨p, hp, hpm, q, hq, hqd⟩
      refine ⟨(p.2.interfaces.filter (fun q => q.2.bridge == d)).map (fun _ => p.1),
        ⟨p, hp, rfl⟩, ?_⟩
      exact List.mem_map.mpr ⟨q, List.mem_filter.mpr ⟨hq, by simp [hqd]⟩, hpm⟩
  · unfold get_machines_by_vnet_interface_name lastCharDigit
    rw [hs]

theorem machines_by_vnet_interface_last_digit_witness :
    ("m1" ∈ ["m1"] ↔
      ∃ p ∈ cfgFull.machines, p.1 = "m1" ∧ ∃ q ∈ p.2.interfaces, q.2.bridge = 1) ∧
    get_machines_by_vnet_interface_name cfgFull "vnet-br11"
      = get_machines_by_vnet_interface_name cfgFull "vnet-br1" :=
  machines_by_vnet_interface_last_digit cfgFull "vnet-br1" "vnet-br11" 1 ["m1"]
    "m1" rfl rfl rfl

/-- Assigning a key not yet present in an insertion-ordered dict appends the
new pair at the end. -/
theorem dictInsert_new {α : Type} (l : List (String × α)) (k : String) (v : α)
    (h : ∀ p ∈ l, p.1 ≠ k) : dictInsert l k v = l ++ [(k, v)] := by
  unfold dictInsert
  rw [if_neg (by
    simp only [List.find?_isSome, not_exists, not_and]
    intro p hp hpk
    exact h p hp (eq_of_beq hpk))]

/-- The device loop of `create_lxc_machines_from_base_image` appends one nic
device per interface when no interface name collides with the keys already
present. -/
theorem lxc_device_config_foldl (bridgeName container : String)
    (interfaces : List (String × InterfaceSpec))
    (init : List (String × List (String × String)))
    (hdisj : ∀ q ∈ interfaces, ∀ p ∈ init, p.1 ≠ q.1)
    (hnodup : (interfaces.map Prod.fst).Nodup) :
    interfaces.foldl
        (fun acc p => dictInsert acc p.1 (lxc_nic_device bridgeName container p.1 p.2))
        init
      = init ++ interfaces.map
          (fun p => (p.1, lxc_nic_device bridgeName container p.1 p.2)) := by
  induction interfaces generalizing init with
  | nil => simp
  | cons q qs ih =>
    rw [List.foldl_cons,
      dictInsert_new init q.1 (lxc_nic_device bridgeName container q.1 q.2)
        (fun p hp => hdisj q (List.mem_cons_self q qs) p hp),
      ih]
    · simp
    · intro r hr p hp
      rcases List.mem_append.mp hp with hpi | hps
      · exact hdisj r (List.mem_cons_of_mem q hr) p hpi
      · have hpq : p = (q.1, lxc_nic_device bridgeName container q.1 q.2) := by
          simpa using hps
        rw [hpq]
        rw [List.map_cons] at hnodup
        have hnd := (List.nodup_cons.mp hnodup).1
        intro hqr
        apply hnd
        rw [hqr]
        exact List.mem_map_of_mem Prod.fst hr
    · rw [List.map_cons] at hnodup
      exact (List.nodup_cons.mp hnodup).2

/-- C10 fails on the code: a machine declaring an interface literally named
`eth0` overwrites the default `eth0` device of type `none` — the resulting
device config has a single `eth0` entry of type `nic` and no entry of type
`none` at all. -/
theorem device_config_eth0_shadowed_counterexample :
    lxc_device_config "vnet-br" "good" [("eth0", ifaceBare)]
      = [("eth0", lxc_nic_device "vnet-br" "good" "eth0" ifaceBare)] ∧
    lookup (lxc_nic_device "vnet-br" "good" "eth0" ifaceBare) "type" = some "nic" ∧
    lookup (lxc_device_config "vnet-br" "good" [("eth0", ifaceBare)]) "eth0"
      ≠ some [("type", "none")] := by
  refine ⟨rfl, rfl, ?_⟩
  decide

/-- C10 amended: as long as no declared interface is named `eth0`, the device
config is the default `eth0` device of type `none` followed by one bridged
nic device per declared interface, whose parent is the bridge-name prefix
concatenated with the interface's bridge index and whose hwaddr is the
interface's MAC; an interface named `eth0` instead replaces the default
device. -/
theorem device_config_shape (bridgeName container : String)
    (interfaces : List (String × InterfaceSpec))
    (hnodup : (interfaces.map Prod.fst).Nodup)
    (heth0 : ∀ p ∈ interfaces, p.1 ≠ "eth0") :
    lxc_device_config bridgeName container interfaces
      = ("eth0", [("type", "none")])
          :: interfaces.map (fun p => (p.1, lxc_nic_device bridgeName container p.1 p.2)) ∧
    ∀ p ∈ interfaces,
      lookup (lxc_nic_device bridgeName container p.1 p.2) "type" = some "nic" ∧
      lookup (lxc_nic_device bridgeName container p.1 p.2) "nictype" = some "bridged" ∧
      lookup (lxc_nic_device bridgeName container p.1 p.2) "parent"
        = some (bridgeName ++ toString p.2.bridge) ∧
      lookup (lxc_nic_device bridgeName container p.1 p.2) "hwaddr" = some p.2.mac := by
  constructor
  · unfold lxc_device_config
    rw [lxc_device_config_foldl bridgeName container interfaces
      [("eth0", [("type", "none")])]
      (fun q hq p hp => by
        have hp' : p = ("eth0", [("type", "none")]) := by simpa using hp
        rw [hp']
        exact fun h => heth0 q hq h.symm)
      hnodup]
    rfl
  · intro p _
    exact ⟨rfl, rfl, rfl, rfl⟩

theorem device_config_shape_witness :
    lxc_device_config "vnet-br" "m1" [("eth1", ifaceFull), ("eth2", ifaceBare)]
      = ("eth0", [("type", "none")])
          :: [("eth1", ifaceFull), ("eth2", ifaceBare)].map
               (fun p => (p.1, lxc_nic_device "vnet-br" "m1" p.1 p.2)) ∧
    ∀ p ∈ [("eth1", ifaceFull), ("eth2", ifaceBare)],
      lookup (lxc_nic_device "vnet-br" "m1" p.1 p.2) "type" = some "nic" ∧
      lookup (lxc_nic_device "vnet-br" "m1" p.1 p.2) "nictype" = some "bridged" ∧
      lookup (lxc_nic_device "vnet-br" "m1" p.1 p.2) "parent"
        = some ("vnet-br" ++ toString p.2.bridge) ∧
      lookup (lxc_nic_device "vnet-br" "m1" p.1 p.2) "hwaddr" = some p.2.mac :=
  device_config_shape "vnet-br" "m1" [("eth1", ifaceFull), ("eth2", ifaceBare)]
    (by decide) (by decide)

end VnetManager
